import Mathlib

/-!
Verification of the Todo CRUD service (Next.js route handlers backed by a
Mongoose document collection).

Shallow embedding of:
- models/Todo.ts          (TodoSchema: title required, maxlength 200;
                           description maxlength 1000; completed default false;
                           timestamps)
- app/api/todos/route.ts  (GET list, POST create)
- app/api/todos/[id]/route.ts (GET one, PUT update, DELETE)
- app/api/health/route.ts (GET health)

JSON response bodies are modelled by a small JSON value type; the document
store is a list of documents plus an availability flag (dbConnect / query
failure throws into the handler catch branch exactly when the flag is false).
Timestamps are naturals supplied by the caller; the store-assigned id of a
created document is a caller-supplied parameter (the store chooses it).
-/

/-- JSON values, enough for the bodies the handlers build. -/
inductive JVal where
  | jstr (s : String)
  | jbool (b : Bool)
  | jnum (n : Nat)
  | jarr (xs : List JVal)
  | jobj (fields : List (String × JVal))

/-- Field lookup in a JSON object (first binding wins); `none` on non-objects. -/
def JVal.getField : JVal → String → Option JVal
  | .jobj fs, k => (fs.find? (fun p => p.1 == k)).map (fun p => p.2)
  | _, _ => none

/-- An HTTP response: status code plus JSON body, as built by NextResponse.json. -/
structure Response where
  status : Nat
  body : JVal

/-- A persisted Todo document (models/Todo.ts `ITodo` plus the
store-assigned `_id` and the `timestamps: true` fields). -/
structure TodoDoc where
  _id : String
  title : String
  description : Option String
  completed : Bool
  createdAt : Nat
  updatedAt : Nat
deriving DecidableEq, Repr

/-- JSON encoding of a persisted document, as serialized into `data`. -/
def TodoDoc.toJson (d : TodoDoc) : JVal :=
  .jobj ([("_id", .jstr d._id), ("title", .jstr d.title)]
    ++ (match d.description with
        | some x => [("description", JVal.jstr x)]
        | none => [])
    ++ [("completed", .jbool d.completed),
        ("createdAt", .jnum d.createdAt),
        ("updatedAt", .jnum d.updatedAt)])

/-- The document store: the Todo collection plus whether the database is
reachable (when `up = false`, dbConnect / the query rejects and the handler
lands in its catch branch). -/
structure Store where
  up : Bool
  docs : List TodoDoc
deriving DecidableEq, Repr

/-- Hexadecimal digit, as accepted in an ObjectId string. -/
def isHexChar (c : Char) : Bool :=
  c.isDigit || (('a' ≤ c) && (c ≤ 'f')) || (('A' ≤ c) && (c ≤ 'F'))

/-- A string Mongoose can cast to an ObjectId: 24 hex characters (or any
12-character string, the raw 12-byte form). Any other string makes
findById / findByIdAndUpdate / findByIdAndDelete throw a CastError. -/
def isValidObjectIdStr (id : String) : Bool :=
  (id.length == 24 && id.all isHexChar) || id.length == 12

/-- Request body for POST /api/todos, after JSON parsing. Absent fields are
`none` (Mongoose strict mode drops unknown keys, so only schema paths matter). -/
structure CreateBody where
  title : Option String
  description : Option String
  completed : Option Bool
deriving DecidableEq, Repr

/-- Schema validation run by `Todo.create`: title is required (a string of
positive length — the schema has no `trim`) and at most 200 characters;
description, when present, at most 1000 characters. -/
def validCreate (b : CreateBody) : Bool :=
  match b.title with
  | none => false
  | some t =>
    (t.length != 0) && decide (t.length ≤ 200) &&
    (match b.description with
     | none => true
     | some x => decide (x.length ≤ 1000))

/-- The document `Todo.create` inserts from a valid body: store assigns the
id, `completed` defaults to false, `timestamps: true` sets both stamps. -/
def createdDoc (b : CreateBody) (newId : String) (now : Nat) : TodoDoc :=
  { _id := newId
    title := b.title.getD ""
    description := b.description
    completed := b.completed.getD false
    createdAt := now
    updatedAt := now }

/-- Request body for PUT /api/todos/id: any subset of the three fields. -/
structure UpdateBody where
  title : Option String
  description : Option String
  completed : Option Bool
deriving DecidableEq, Repr

/-- Update validators (`runValidators: true`): each supplied path is checked
against the same schema constraints; unsupplied paths are not checked. -/
def validUpdate (b : UpdateBody) : Bool :=
  (match b.title with
   | none => true
   | some t => (t.length != 0) && decide (t.length ≤ 200)) &&
  (match b.description with
   | none => true
   | some x => decide (x.length ≤ 1000))

/-- `findByIdAndUpdate` merge semantics: supplied fields overwrite, the rest
keep their prior values; `timestamps: true` refreshes `updatedAt`. -/
def applyUpdate (d : TodoDoc) (b : UpdateBody) (now : Nat) : TodoDoc :=
  { d with
    title := b.title.getD d.title
    description := match b.description with
      | some x => some x
      | none => d.description
    completed := b.completed.getD d.completed
    updatedAt := now }

/-- Sort order of `Todo.find({}).sort({ createdAt: -1 })`: most recently
created first. -/
def createdDesc (a b : TodoDoc) : Prop := b.createdAt ≤ a.createdAt

instance : DecidableRel createdDesc := fun a b => Nat.decLe b.createdAt a.createdAt

instance : IsTotal TodoDoc createdDesc := ⟨fun a b => Nat.le_total b.createdAt a.createdAt⟩

instance : IsTrans TodoDoc createdDesc := ⟨fun _ _ _ h1 h2 => Nat.le_trans h2 h1⟩

/-- The collection sorted by `createdAt` descending. -/
def sortByCreatedAtDesc (l : List TodoDoc) : List TodoDoc :=
  List.insertionSort createdDesc l

/-- Success envelope `{ success: true, data: v }`. -/
def okBody (v : JVal) : JVal :=
  .jobj [("success", .jbool true), ("data", v)]

/-- Failure envelope `{ success: false, error: msg }`. -/
def errBody (msg : String) : JVal :=
  .jobj [("success", .jbool false), ("error", .jstr msg)]

namespace Todos

/-- GET /api/todos (app/api/todos/route.ts): list all todos sorted by
createdAt descending; any store failure is caught and reported as 500. -/
def GET (s : Store) : Response :=
  if s.up then
    { status := 200
      body := okBody (.jarr ((sortByCreatedAtDesc s.docs).map TodoDoc.toJson)) }
  else
    { status := 500, body := errBody "Failed to fetch todos" }

/-- POST /api/todos (app/api/todos/route.ts): `Todo.create(body)`; both a
store failure and a schema validation failure reject into the catch branch,
which answers 400 with a fixed message. -/
def POST (s : Store) (b : CreateBody) (newId : String) (now : Nat) :
    Response × Store :=
  if s.up then
    if validCreate b then
      let d := createdDoc b newId now
      ({ status := 201, body := okBody d.toJson }, { s with docs := s.docs ++ [d] })
    else
      ({ status := 400, body := errBody "Failed to create todo" }, s)
  else
    ({ status := 400, body := errBody "Failed to create todo" }, s)

end Todos

namespace TodoById

/-- GET /api/todos/id (app/api/todos/[id]/route.ts): `findById`; a CastError
on a malformed id, like a store failure, lands in the catch branch (500);
a cast-valid id matching nothing returns null, answered with 404. -/
def GET (s : Store) (id : String) : Response :=
  if s.up then
    if isValidObjectIdStr id then
      match s.docs.find? (fun d => d._id == id) with
      | none => { status := 404, body := errBody "Todo not found" }
      | some d => { status := 200, body := okBody d.toJson }
    else
      { status := 500, body := errBody "Failed to fetch todo" }
  else
    { status := 500, body := errBody "Failed to fetch todo" }

/-- PUT /api/todos/id (app/api/todos/[id]/route.ts): `findByIdAndUpdate`
with `new: true, runValidators: true`. CastError (malformed id), update
validator failure and store failure all land in the catch branch (400);
a cast-valid id matching nothing returns null, answered with 404. -/
def PUT (s : Store) (id : String) (b : UpdateBody) (now : Nat) :
    Response × Store :=
  if s.up then
    if isValidObjectIdStr id then
      if validUpdate b then
        match s.docs.find? (fun d => d._id == id) with
        | none => ({ status := 404, body := errBody "Todo not found" }, s)
        | some d =>
          let d' := applyUpdate d b now
          ({ status := 200, body := okBody d'.toJson },
           { s with docs := s.docs.map (fun x => if x._id == id then d' else x) })
      else
        ({ status := 400, body := errBody "Failed to update todo" }, s)
    else
      ({ status := 400, body := errBody "Failed to update todo" }, s)
  else
    ({ status := 400, body := errBody "Failed to update todo" }, s)

/-- DELETE /api/todos/id (app/api/todos/[id]/route.ts): `findByIdAndDelete`;
CastError and store failure land in the catch branch (500); a cast-valid id
matching nothing returns null, answered with 404. -/
def DELETE (s : Store) (id : String) : Response × Store :=
  if s.up then
    if isValidObjectIdStr id then
      match s.docs.find? (fun d => d._id == id) with
      | none => ({ status := 404, body := errBody "Todo not found" }, s)
      | some _ =>
        ({ status := 200, body := okBody (.jobj []) },
         { s with docs := s.docs.eraseP (fun d => d._id == id) })
    else
      ({ status := 500, body := errBody "Failed to delete todo" }, s)
  else
    ({ status := 500, body := errBody "Failed to delete todo" }, s)

end TodoById

namespace Health

/-- GET /api/health (app/api/health/route.ts): the try block only builds the
fixed payload — it performs no dependency check, so the store state is never
consulted and the catch branch is unreachable. -/
def GET (_s : Store) (now : Nat) : Response :=
  { status := 200
    body := .jobj [("status", .jstr "healthy"),
                   ("timestamp", .jnum now),
                   ("service", .jstr "todo-app")] }

end Health

/-- The response envelope shape: a `success` boolean; `data` present when
true, `error` present when false. -/
def envelopeOk (body : JVal) : Bool :=
  match body.getField "success" with
  | some (.jbool true) => (body.getField "data").isSome
  | some (.jbool false) => (body.getField "error").isSome
  | _ => false

/-- The title constraint every persisted document is claimed to satisfy. -/
def titleOk (d : TodoDoc) : Prop :=
  d.title.length ≠ 0 ∧ d.title.length ≤ 200

/-! ## Theorems -/

/-- Claim C5: GET /health returns the fixed healthy payload with HTTP 200 in
every store state, including when the store is down; the handler performs no
dependency check, so its result is independent of the persistence layer. -/
theorem health_independent_of_store (s1 s2 : Store) (now : Nat) :
    Health.GET s1 now = Health.GET s2 now ∧
    (Health.GET s1 now).status = 200 ∧
    (Health.GET s1 now).body =
      .jobj [("status", .jstr "healthy"), ("timestamp", .jnum now),
             ("service", .jstr "todo-app")] :=
  ⟨rfl, rfl, rfl⟩

/-- Claim C6, counterexample: the response body of the health endpoint carries no
`success` boolean at all, so not every response body of the service carries
one. -/
theorem health_body_lacks_success_field :
    (Health.GET ⟨true, []⟩ 0).body.getField "success" = none ∧
    envelopeOk (Health.GET ⟨true, []⟩ 0).body = false :=
  ⟨rfl, rfl⟩

/-- Claim C6 (amended): every response of the five Todo CRUD operations
carries a `success` boolean with the payload under `data` on success and the
message under `error` on failure; the health endpoint is the exception, its
body carrying `status`/`timestamp`/`service` and no `success` field. -/
theorem envelope_invariant (s : Store) (id newId : String) (cb : CreateBody)
    (ub : UpdateBody) (now : Nat) :
    envelopeOk (Todos.GET s).body = true ∧
    envelopeOk (Todos.POST s cb newId now).1.body = true ∧
    envelopeOk (TodoById.GET s id).body = true ∧
    envelopeOk (TodoById.PUT s id ub now).1.body = true ∧
    envelopeOk (TodoById.DELETE s id).1.body = true ∧
    (Health.GET s now).body.getField "success" = none := by
  refine ⟨?_, ?_, ?_, ?_, ?_, rfl⟩
  · unfold Todos.GET; split <;> rfl
  · unfold Todos.POST; split <;> (try split) <;> rfl
  · unfold TodoById.GET; split <;> (try split) <;> (try split) <;> rfl
  · unfold TodoById.PUT
    split <;> (try split) <;> (try split) <;> (try split) <;> rfl
  · unfold TodoById.DELETE; split <;> (try split) <;> (try split) <;> rfl

/-- Claim C7, counterexample: GET /todos/abc with the store up answers the
generic 500 catch response, not the claimed 404 not-found. -/
theorem get_malformed_id_counterexample :
    TodoById.GET ⟨true, []⟩ "abc" = ⟨500, errBody "Failed to fetch todo"⟩ ∧
    (TodoById.GET ⟨true, []⟩ "abc").status ≠ 404 :=
  ⟨rfl, by decide⟩

/-- Claim C7 (amended): a malformed id makes findById throw a CastError,
which lands in the generic catch branch, so GET /todos/id answers
HTTP 500 with the store-failure message, not 404 and not 400. -/
theorem get_malformed_id_is_500 (s : Store) (id : String)
    (hup : s.up = true) (hid : isValidObjectIdStr id = false) :
    TodoById.GET s id = ⟨500, errBody "Failed to fetch todo"⟩ := by
  simp [TodoById.GET, hup, hid]

/-- Witness for the amended C7 theorem at a concrete malformed id. -/
theorem get_malformed_id_is_500_witness :
    TodoById.GET ⟨true, []⟩ "abc" = ⟨500, errBody "Failed to fetch todo"⟩ :=
  get_malformed_id_is_500 ⟨true, []⟩ "abc" rfl rfl

/-- Claim C10: on a malformed id the CastError is raised before the
not-found check, so PUT answers its catch response 400 with the update
failure message, DELETE answers its catch response 500 with the delete
failure message, and neither answers 404. -/
theorem put_delete_malformed_id_generic (s : Store) (id : String)
    (b : UpdateBody) (now : Nat)
    (hup : s.up = true) (hid : isValidObjectIdStr id = false) :
    TodoById.PUT s id b now = (⟨400, errBody "Failed to update todo"⟩, s) ∧
    TodoById.DELETE s id = (⟨500, errBody "Failed to delete todo"⟩, s) ∧
    (TodoById.PUT s id b now).1.status ≠ 404 ∧
    (TodoById.DELETE s id).1.status ≠ 404 := by
  have h1 : TodoById.PUT s id b now = (⟨400, errBody "Failed to update todo"⟩, s) := by
    simp [TodoById.PUT, hup, hid]
  have h2 : TodoById.DELETE s id = (⟨500, errBody "Failed to delete todo"⟩, s) := by
    simp [TodoById.DELETE, hup, hid]
  exact ⟨h1, h2, by simp [h1], by simp [h2]⟩

/-- Witness for the C10 theorem at a concrete malformed id. -/
theorem put_delete_malformed_id_generic_witness :
    TodoById.PUT ⟨true, []⟩ "abc" ⟨none, none, none⟩ 0 =
      (⟨400, errBody "Failed to update todo"⟩, ⟨true, []⟩) ∧
    TodoById.DELETE ⟨true, []⟩ "abc" =
      (⟨500, errBody "Failed to delete todo"⟩, ⟨true, []⟩) ∧
    (TodoById.PUT ⟨true, []⟩ "abc" ⟨none, none, none⟩ 0).1.status ≠ 404 ∧
    (TodoById.DELETE ⟨true, []⟩ "abc").1.status ≠ 404 :=
  put_delete_malformed_id_generic ⟨true, []⟩ "abc" ⟨none, none, none⟩ 0 rfl rfl

/-- A creation body whose title is missing, empty, or over 200 characters
fails schema validation. -/
theorem validCreate_false_of_bad_title (b : CreateBody)
    (hbad : b.title = none ∨ b.title = some "" ∨
            ∃ t, b.title = some t ∧ 200 < t.length) :
    validCreate b = false := by
  rcases hbad with h | h | ⟨t, ht, hlen⟩
  · simp [validCreate, h]
  · simp [validCreate, h]
  · have hd : decide (t.length ≤ 200) = false := by
      simp [decide_eq_false_iff_not]
      omega
    simp [validCreate, ht, hd]

/-- Claim C3: POST /todos with an empty, missing, or over-200-character
title answers 400 with success false and inserts nothing — the store is
unchanged and a subsequent List answers exactly as before. -/
theorem create_invalid_title_rejected (s : Store) (b : CreateBody)
    (newId : String) (now : Nat)
    (hbad : b.title = none ∨ b.title = some "" ∨
            ∃ t, b.title = some t ∧ 200 < t.length) :
    (Todos.POST s b newId now).1 = ⟨400, errBody "Failed to create todo"⟩ ∧
    (Todos.POST s b newId now).2 = s ∧
    Todos.GET (Todos.POST s b newId now).2 = Todos.GET s := by
  have hv : validCreate b = false := validCreate_false_of_bad_title b hbad
  refine ⟨?_, ?_, ?_⟩ <;> simp [Todos.POST, hv]

/-- Witness for the C3 theorem: a body with no title at all. -/
theorem create_invalid_title_rejected_witness :
    (Todos.POST ⟨true, []⟩ ⟨none, none, none⟩ "a" 0).1 =
      ⟨400, errBody "Failed to create todo"⟩ ∧
    (Todos.POST ⟨true, []⟩ ⟨none, none, none⟩ "a" 0).2 = ⟨true, []⟩ ∧
    Todos.GET (Todos.POST ⟨true, []⟩ ⟨none, none, none⟩ "a" 0).2 =
      Todos.GET ⟨true, []⟩ :=
  create_invalid_title_rejected ⟨true, []⟩ ⟨none, none, none⟩ "a" 0 (Or.inl rfl)

/-- Claim C8, counterexample: the 400 response to a validation failure
(missing title, store up) is byte-for-byte the same response as the one to a
pure store failure (valid body, store down) — the generic
`Failed to create todo`: the violated constraint is not reported and store
errors are not distinct from validation errors. -/
theorem create_error_message_counterexample :
    (Todos.POST ⟨true, []⟩ ⟨none, none, none⟩ "a" 0).1 =
      (Todos.POST ⟨false, []⟩ ⟨some "hi", none, none⟩ "a" 0).1 ∧
    (Todos.POST ⟨true, []⟩ ⟨none, none, none⟩ "a" 0).1.body =
      errBody "Failed to create todo" :=
  ⟨rfl, rfl⟩

/-- Claim C8 (amended): every Create failure — schema validation failure or
store-level failure alike — is answered by the catch branch with the same
fixed 400 response carrying the generic message, naming no field constraint
and not distinguishing store errors from validation errors. -/
theorem create_failure_generic (s : Store) (b : CreateBody) (newId : String)
    (now : Nat) (hv : validCreate b = false) :
    (Todos.POST s b newId now).1 = ⟨400, errBody "Failed to create todo"⟩ ∧
    ∀ s2 b2 newId2 now2, s2.up = false →
      (Todos.POST s2 b2 newId2 now2).1 = (Todos.POST s b newId now).1 := by
  have h1 : (Todos.POST s b newId now).1 =
      ⟨400, errBody "Failed to create todo"⟩ := by
    simp [Todos.POST, hv]
  refine ⟨h1, fun s2 b2 newId2 now2 h2 => ?_⟩
  rw [h1]
  simp [Todos.POST, h2]

/-- Witness for the amended C8 theorem at a concrete invalid body. -/
theorem create_failure_generic_witness :
    (Todos.POST ⟨true, []⟩ ⟨none, none, none⟩ "a" 0).1 =
      ⟨400, errBody "Failed to create todo"⟩ ∧
    ∀ s2 b2 newId2 now2, s2.up = false →
      (Todos.POST s2 b2 newId2 now2).1 =
        (Todos.POST ⟨true, []⟩ ⟨none, none, none⟩ "a" 0).1 :=
  create_failure_generic ⟨true, []⟩ ⟨none, none, none⟩ "a" 0 rfl

/-- Claim C1: with the store up, GET /todos answers 200 with a success
envelope whose data is the whole collection ordered by createdAt descending
(a sorted permutation of the stored documents, whatever their insertion
order); with the store down it answers the 500 failure envelope. -/
theorem list_sorted_desc (s : Store) :
    (s.up = true →
      ∃ l : List TodoDoc,
        Todos.GET s = ⟨200, okBody (.jarr (l.map TodoDoc.toJson))⟩ ∧
        List.Perm l s.docs ∧ List.Sorted createdDesc l) ∧
    (s.up = false →
      Todos.GET s = ⟨500, errBody "Failed to fetch todos"⟩) := by
  constructor
  · intro h
    refine ⟨sortByCreatedAtDesc s.docs, ?_, ?_, ?_⟩
    · simp [Todos.GET, h]
    · exact List.perm_insertionSort createdDesc s.docs
    · exact List.sorted_insertionSort createdDesc s.docs
  · intro h
    simp [Todos.GET, h]

/-- Witness for the C1 theorem: a two-document collection inserted in
ascending createdAt order, and a down store. -/
theorem list_sorted_desc_witness :
    (∃ l : List TodoDoc,
      Todos.GET ⟨true, [⟨"a", "t1", none, false, 1, 1⟩,
                        ⟨"b", "t2", none, false, 5, 5⟩]⟩ =
        ⟨200, okBody (.jarr (l.map TodoDoc.toJson))⟩ ∧
      List.Perm l [⟨"a", "t1", none, false, 1, 1⟩,
                   ⟨"b", "t2", none, false, 5, 5⟩] ∧
      List.Sorted createdDesc l) ∧
    Todos.GET ⟨false, []⟩ = ⟨500, errBody "Failed to fetch todos"⟩ :=
  ⟨(list_sorted_desc ⟨true, [⟨"a", "t1", none, false, 1, 1⟩,
                             ⟨"b", "t2", none, false, 5, 5⟩]⟩).1 rfl,
   (list_sorted_desc ⟨false, []⟩).2 rfl⟩

/-- Claim C4: a well-formed id matching no stored document makes Get answer
404 Todo not found, Update (with a body passing the update validators)
answer 404 leaving the store untouched, and Delete answer 404 leaving the
store untouched — never the generic 500 or 400 failure. -/
theorem notfound_on_unmatched_id (s : Store) (id : String)
    (hup : s.up = true) (hid : isValidObjectIdStr id = true)
    (hnone : s.docs.find? (fun d => d._id == id) = none) :
    TodoById.GET s id = ⟨404, errBody "Todo not found"⟩ ∧
    (∀ b now, validUpdate b = true →
      TodoById.PUT s id b now = (⟨404, errBody "Todo not found"⟩, s)) ∧
    TodoById.DELETE s id = (⟨404, errBody "Todo not found"⟩, s) := by
  refine ⟨?_, fun b now hb => ?_, ?_⟩
  · simp [TodoById.GET, hup, hid, hnone]
  · simp [TodoById.PUT, hup, hid, hb, hnone]
  · simp [TodoById.DELETE, hup, hid, hnone]

/-- Witness for the C4 theorem: an empty collection and a cast-valid
12-character id. -/
theorem notfound_on_unmatched_id_witness :
    TodoById.GET ⟨true, []⟩ "aaaaaaaaaaaa" = ⟨404, errBody "Todo not found"⟩ ∧
    (∀ b now, validUpdate b = true →
      TodoById.PUT ⟨true, []⟩ "aaaaaaaaaaaa" b now =
        (⟨404, errBody "Todo not found"⟩, ⟨true, []⟩)) ∧
    TodoById.DELETE ⟨true, []⟩ "aaaaaaaaaaaa" =
      (⟨404, errBody "Todo not found"⟩, ⟨true, []⟩) :=
  notfound_on_unmatched_id ⟨true, []⟩ "aaaaaaaaaaaa" rfl rfl rfl

/-- Claim C2: updating an existing document with any subset of
title/description/completed (the empty subset included) answers 200 with a
document that keeps the prior value of every unsupplied field, keeps `_id`
and `createdAt`, takes the supplied value for every supplied field, and has
`updatedAt` refreshed to the request time. -/
theorem update_merges_only_supplied_fields (s : Store) (id : String)
    (b : UpdateBody) (now : Nat) (d : TodoDoc)
    (hup : s.up = true) (hid : isValidObjectIdStr id = true)
    (hb : validUpdate b = true)
    (hfind : s.docs.find? (fun x => x._id == id) = some d) :
    ∃ d' : TodoDoc,
      (TodoById.PUT s id b now).1 = ⟨200, okBody d'.toJson⟩ ∧
      d'._id = d._id ∧ d'.createdAt = d.createdAt ∧ d'.updatedAt = now ∧
      (b.title = none → d'.title = d.title) ∧
      (∀ t, b.title = some t → d'.title = t) ∧
      (b.description = none → d'.description = d.description) ∧
      (∀ x, b.description = some x → d'.description = some x) ∧
      (b.completed = none → d'.completed = d.completed) ∧
      (∀ c, b.completed = some c → d'.completed = c) := by
  refine ⟨applyUpdate d b now, ?_, rfl, rfl, rfl, ?_, ?_, ?_, ?_, ?_, ?_⟩
  · simp [TodoById.PUT, hup, hid, hb, hfind]
  · intro h; simp [applyUpdate, h]
  · intro t h; simp [applyUpdate, h]
  · intro h; simp [applyUpdate, h]
  · intro x h; simp [applyUpdate, h]
  · intro h; simp [applyUpdate, h]
  · intro c h; simp [applyUpdate, h]

/-- Witness for the C2 theorem: the empty update body applied to a stored
document — a no-op merge that still refreshes updatedAt to 7. -/
theorem update_merges_only_supplied_fields_witness :
    ∃ d' : TodoDoc,
      (TodoById.PUT ⟨true, [⟨"aaaaaaaaaaaa", "t", none, false, 1, 1⟩]⟩
        "aaaaaaaaaaaa" ⟨none, none, none⟩ 7).1 = ⟨200, okBody d'.toJson⟩ ∧
      d'._id = "aaaaaaaaaaaa" ∧ d'.createdAt = 1 ∧ d'.updatedAt = 7 ∧
      ((⟨none, none, none⟩ : UpdateBody).title = none → d'.title = "t") ∧
      (∀ t, (⟨none, none, none⟩ : UpdateBody).title = some t → d'.title = t) ∧
      ((⟨none, none, none⟩ : UpdateBody).description = none →
        d'.description = none) ∧
      (∀ x, (⟨none, none, none⟩ : UpdateBody).description = some x →
        d'.description = some x) ∧
      ((⟨none, none, none⟩ : UpdateBody).completed = none →
        d'.completed = false) ∧
      (∀ c, (⟨none, none, none⟩ : UpdateBody).completed = some c →
        d'.completed = c) :=
  update_merges_only_supplied_fields
    ⟨true, [⟨"aaaaaaaaaaaa", "t", none, false, 1, 1⟩]⟩ "aaaaaaaaaaaa"
    ⟨none, none, none⟩ 7 ⟨"aaaaaaaaaaaa", "t", none, false, 1, 1⟩
    rfl rfl rfl rfl

/-- Claim C9, counterexample: the schema has no `trim`, so a title that is a
single space passes the required check and POST persists a whitespace-only
title with 201. -/
theorem whitespace_title_accepted :
    (Todos.POST ⟨true, []⟩ ⟨some " ", none, none⟩ "a" 3).1.status = 201 ∧
    (Todos.POST ⟨true, []⟩ ⟨some " ", none, none⟩ "a" 3).2.docs =
      [⟨"a", " ", none, false, 3, 3⟩] :=
  ⟨rfl, rfl⟩

/-- A document created from a body that passed schema validation has a
non-empty title of at most 200 characters. -/
theorem titleOk_createdDoc (b : CreateBody) (newId : String) (now : Nat)
    (h : validCreate b = true) : titleOk (createdDoc b newId now) := by
  rcases b with ⟨tt, dd, cc⟩
  cases tt with
  | none => simp [validCreate] at h
  | some t =>
    cases dd with
    | none =>
      simp [validCreate] at h
      exact ⟨h.1, h.2⟩
    | some x =>
      simp [validCreate] at h
      exact ⟨h.1.1, h.1.2⟩

/-- Applying a validated update to a document with a well-formed title
leaves the title well-formed. -/
theorem titleOk_applyUpdate (d : TodoDoc) (b : UpdateBody) (now : Nat)
    (hd : titleOk d) (h : validUpdate b = true) :
    titleOk (applyUpdate d b now) := by
  rcases b with ⟨tt, dd, cc⟩
  cases tt with
  | none =>
    exact ⟨hd.1, hd.2⟩
  | some t =>
    cases dd with
    | none =>
      simp [validUpdate] at h
      exact ⟨h.1, h.2⟩
    | some x =>
      simp [validUpdate] at h
      exact ⟨h.1.1, h.1.2⟩

/-- Claim C9 (amended): the title is required to be non-empty but is NOT
trimmed — a whitespace-only title is accepted and persisted (see the
counterexample) — and both mutating operations preserve the invariant that
every persisted Todo has a non-empty title of at most 200 characters. -/
theorem persisted_titles_wellformed (s : Store) (b : CreateBody)
    (ub : UpdateBody) (newId id : String) (now now2 : Nat)
    (hinv : ∀ d ∈ s.docs, titleOk d) :
    (∀ d ∈ (Todos.POST s b newId now).2.docs, titleOk d) ∧
    (∀ d ∈ (TodoById.PUT s id ub now2).2.docs, titleOk d) := by
  constructor
  · intro d hd
    rcases s with ⟨up, docs⟩
    cases up with
    | false => exact hinv d hd
    | true =>
      by_cases hv : validCreate b = true
      · simp [Todos.POST, hv] at hd
        rcases hd with hd | hd
        · exact hinv d (by simpa using hd)
        · exact hd ▸ titleOk_createdDoc b newId now hv
      · simp [Todos.POST, Bool.eq_false_iff.mpr hv] at hd
        exact hinv d (by simpa using hd)
  · intro d hd
    rcases s with ⟨up, docs⟩
    cases up with
    | false => exact hinv d hd
    | true =>
      by_cases hid : isValidObjectIdStr id = true
      · by_cases hu : validUpdate ub = true
        · cases hfind : docs.find? (fun x => x._id == id) with
          | none => simp [TodoById.PUT, hid, hu, hfind] at hd; exact hinv d (by simpa using hd)
          | some d0 =>
            simp [TodoById.PUT, hid, hu, hfind] at hd
            rcases hd with ⟨x, hx, hxd⟩
            by_cases hxid : x._id = id
            · have hd0 : titleOk d0 :=
                hinv d0 (by simpa using List.mem_of_find?_eq_some hfind)
              rw [if_pos hxid] at hxd
              exact hxd ▸ titleOk_applyUpdate d0 ub now2 hd0 hu
            · rw [if_neg hxid] at hxd
              exact hxd ▸ hinv x (by simpa using hx)
        · simp [TodoById.PUT, hid, Bool.eq_false_iff.mpr hu] at hd
          exact hinv d (by simpa using hd)
      · simp [TodoById.PUT, Bool.eq_false_iff.mpr hid] at hd
        exact hinv d (by simpa using hd)

/-- Witness for the amended C9 theorem: creating a valid todo in, and
updating against, an empty collection. -/
theorem persisted_titles_wellformed_witness :
    (∀ d ∈ (Todos.POST ⟨true, []⟩ ⟨some "x", none, none⟩ "a" 0).2.docs,
      titleOk d) ∧
    (∀ d ∈ (TodoById.PUT ⟨true, []⟩ "aaaaaaaaaaaa" ⟨none, none, none⟩ 0).2.docs,
      titleOk d) :=
  persisted_titles_wellformed ⟨true, []⟩ ⟨some "x", none, none⟩
    ⟨none, none, none⟩ "a" "aaaaaaaaaaaa" 0 0 (by simp)
